import Mathlib

/-!
Verification development for the l7na antenna motion-control repository.

The data model is embedded from `src/l7na/types.h` (namespace `Types` below)
and from the API header `src/l7na/drives.h` (namespace `DrivesH` below; that
header carries its own, older variants of `AxisState` / `AxisStatus` /
`SystemStatus`).  The command-line example `src/utils/example.cpp` is embedded
where a claim refers to it.  Behaviour that lives in the (absent)
implementation file is modelled from the specification and is marked
`Modelled from the spec:` in its doc comment.

Machine integers are embedded as `Nat` / `Int`; `double` fields are embedded
as `Rat`.
-/

namespace Types

/-- types.h `enum Axis`: enumerator `AXIS_NONE = -1`. -/
def AXIS_NONE : Int := -1

/-- types.h `enum Axis`: enumerator `AXIS_MIN = 0`. -/
def AXIS_MIN : Int := 0

/-- types.h `enum Axis`: enumerator `AZIMUTH_AXIS = 0`. -/
def AZIMUTH_AXIS : Int := 0

/-- types.h `enum Axis`: enumerator `ELEVATION_AXIS = 1`. -/
def ELEVATION_AXIS : Int := 1

/-- types.h `enum Axis`: enumerator `AXIS_COUNT` (next value after
`ELEVATION_AXIS = 1`, hence `2`). -/
def AXIS_COUNT : Int := 2

/-- types.h `enum AxisState` (CiA-402 state machine states). -/
inductive AxisState : Type where
  | AXIS_DISABLED
  | AXIS_INIT
  | AXIS_IDLE
  | AXIS_ENABLED
  | AXIS_STOP
  | AXIS_WARNING
  | AXIS_ERROR
  deriving DecidableEq, Repr

/-- Underlying `int32_t` value of each `AxisState` enumerator
(first enumerator 0, then consecutive). -/
def AxisState.toInt : AxisState → Int
  | .AXIS_DISABLED => 0
  | .AXIS_INIT => 1
  | .AXIS_IDLE => 2
  | .AXIS_ENABLED => 3
  | .AXIS_STOP => 4
  | .AXIS_WARNING => 5
  | .AXIS_ERROR => 6

/-- types.h `enum SystemState`. -/
inductive SystemState : Type where
  | SYSTEM_OFF
  | SYSTEM_INIT
  | SYSTEM_READY
  | SYSTEM_PROCESSING
  | SYSTEM_WARNING
  | SYSTEM_ERROR
  | SYSTEM_FATAL_ERROR
  deriving DecidableEq, Repr

/-- Underlying `int32_t` value of each `SystemState` enumerator
(`SYSTEM_OFF = -1`, then consecutive). -/
def SystemState.toInt : SystemState → Int
  | .SYSTEM_OFF => -1
  | .SYSTEM_INIT => 0
  | .SYSTEM_READY => 1
  | .SYSTEM_PROCESSING => 2
  | .SYSTEM_WARNING => 3
  | .SYSTEM_ERROR => 4
  | .SYSTEM_FATAL_ERROR => 5

/-- types.h `enum ParamsMode`. -/
inductive ParamsMode : Type where
  | PARAMS_MODE_AUTOMATIC
  | PARAMS_MODE_MANUAL
  deriving DecidableEq, Repr

/-- types.h `using MoveMode = uint16_t`. -/
def MoveMode : Type := Nat

/-- types.h `enum OperationMode`. -/
inductive OperationMode : Type where
  | OP_MODE_NOT_SET
  | OP_MODE_POINT
  | OP_MODE_SCAN
  deriving DecidableEq, Repr

/-- Underlying `uint16_t` raw value of each `OperationMode` enumerator
(explicit values 0, 1, 3 in types.h). -/
def OperationMode.toNat : OperationMode → Nat
  | .OP_MODE_NOT_SET => 0
  | .OP_MODE_POINT => 1
  | .OP_MODE_SCAN => 3

/-- types.h `struct AxisStatus` (per-axis dynamic values; `double` fields
embedded as `Rat`, `int32_t`/`int16_t` as `Int`, unsigned as `Nat`). -/
structure AxisStatus : Type where
  tgt_pos_deg : Rat
  cur_pos_deg : Rat
  dmd_pos_deg : Rat
  tgt_vel_deg : Rat
  cur_vel_deg : Rat
  dmd_vel_deg : Rat
  cur_pos_abs : Int
  cur_pos : Int
  dmd_pos : Int
  tgt_pos : Int
  cur_vel : Int
  dmd_vel : Int
  tgt_vel : Int
  cur_torq : Int
  state : AxisState
  error_code : Nat
  cur_temperature0 : Int
  cur_temperature1 : Int
  cur_temperature2 : Int
  ctrlword : Nat
  statusword : Nat
  mode : OperationMode
  move_mode : Nat
  params_mode : ParamsMode

/-- types.h `struct SystemStatus`: two per-axis statuses (the
`axes[AXIS_COUNT]` array, given here as the azimuth and elevation entries),
the overall state, and the cycle timestamps. -/
structure SystemStatus : Type where
  axisAzimuth : AxisStatus
  axisElevation : AxisStatus
  state : SystemState
  reftime : Nat
  apptime : Nat
  dcsync : Nat

/-- types.h `struct AxisInfo` (static per-axis information). -/
structure AxisInfo : Type where
  encoder_pulses_per_rev : Nat
  dev_name : String
  hw_version : String
  sw_version : String

/-- types.h `AxisInfo::AxisInfo()` default constructor:
`encoder_pulses_per_rev(0)`, empty strings. -/
def AxisInfo.init : AxisInfo :=
  { encoder_pulses_per_rev := 0
    dev_name := ""
    hw_version := ""
    sw_version := "" }

/-- Maximum representable value of `uint64_t`
(`std::numeric_limits<uint64_t>::max()`). -/
def UINT64_MAX : Nat := 2 ^ 64 - 1

/-- types.h `struct CycleTimeInfo`: running min/max/current of period,
execution time and latency, all `uint64_t` nanoseconds. -/
structure CycleTimeInfo : Type where
  period_ns : Nat
  exec_ns : Nat
  latency_ns : Nat
  latency_min_ns : Nat
  latency_max_ns : Nat
  period_min_ns : Nat
  period_max_ns : Nat
  exec_min_ns : Nat
  exec_max_ns : Nat

/-- types.h `CycleTimeInfo::CycleTimeInfo()` default constructor: zeros
everywhere except the three `*_min_ns` fields, which start at
`std::numeric_limits<uint64_t>::max()`. -/
def CycleTimeInfo.init : CycleTimeInfo :=
  { period_ns := 0
    exec_ns := 0
    latency_ns := 0
    latency_min_ns := UINT64_MAX
    latency_max_ns := 0
    period_min_ns := UINT64_MAX
    period_max_ns := 0
    exec_min_ns := UINT64_MAX
    exec_max_ns := 0 }

/-- example.cpp `print_status` / `print_status_cerr` iterate the axes with
`for (int32_t axis = Drives::AXIS_MIN; axis < Drives::AXIS_COUNT; ++axis)`:
the visited indices, in visiting order. -/
def iteratedAxes : List Int :=
  (List.range (AXIS_COUNT - AXIS_MIN).toNat).map (fun i => AXIS_MIN + (i : Int))

end Types

namespace DrivesH

/-- drives.h `enum class AxisState` (the API header's older variant,
`AXIS_OFF = -1` through `AXIS_ERROR`). -/
inductive AxisState : Type where
  | AXIS_OFF
  | AXIS_INIT
  | AXIS_IDLE
  | AXIS_SCAN
  | AXIS_POINT
  | AXIS_ERROR
  deriving DecidableEq, Repr

/-- drives.h `enum class SystemState` (the API header's older variant). -/
inductive SystemState : Type where
  | SYSTEM_OFF
  | SYSTEM_OK
  | SYSTEM_INIT
  | SYSTEM_ERROR
  deriving DecidableEq, Repr

/-- drives.h `struct AxisStatus`. -/
structure AxisStatus : Type where
  target_position : Int
  cur_position : Int
  demand_position : Int
  target_velocity : Int
  cur_velocity : Int
  demand_velocity : Int
  cur_torque : Int
  state : AxisState
  error_code : Nat
  statusword : Nat

/-- drives.h `AxisStatus::AxisStatus()` default constructor.  Its
initializer list covers every field except `statusword`, which is left
indeterminate; the indeterminate value is taken as the parameter `sw`. -/
def AxisStatus.init (sw : Nat) : AxisStatus :=
  { target_position := 0
    cur_position := 0
    demand_position := 0
    target_velocity := 0
    cur_velocity := 0
    demand_velocity := 0
    cur_torque := 0
    state := .AXIS_OFF
    error_code := 0
    statusword := sw }

/-- drives.h `struct SystemStatus`. -/
structure SystemStatus : Type where
  azimuth : AxisStatus
  elevation : AxisStatus
  state : SystemState
  error_str : String

/-- drives.h `SystemStatus::SystemStatus()` default constructor:
default-constructs both axis statuses (`swa`, `swe` are their indeterminate
`statusword` values), `state(SystemState::SYSTEM_OFF)`, empty `error_str`. -/
def SystemStatus.init (swa swe : Nat) : SystemStatus :=
  { azimuth := AxisStatus.init swa
    elevation := AxisStatus.init swe
    state := .SYSTEM_OFF
    error_str := "" }

end DrivesH

namespace Model

/-- Modelled from the spec: the per-axis condition that makes the system
`SYSTEM_ERROR` — the axis state lies in `{AXIS_STOP, AXIS_ERROR}` (the
implementation file deriving `SystemState` is not among the provided
sources). -/
def axisFaulty (s : Types.AxisState) : Bool :=
  s = Types.AxisState.AXIS_STOP ∨ s = Types.AxisState.AXIS_ERROR

/-- Modelled from the spec: the overall `SystemState` derived from the two
axis states, read as the spec's ordered rule — `SYSTEM_ERROR` if any axis
state is in `{AXIS_STOP, AXIS_ERROR}`; else `SYSTEM_WARNING` if any axis
state is `AXIS_WARNING`; else `SYSTEM_PROCESSING` if any axis state is
`AXIS_ENABLED`; `SYSTEM_READY` otherwise. -/
def systemStateOf (az el : Types.AxisState) : Types.SystemState :=
  if axisFaulty az ∨ axisFaulty el then .SYSTEM_ERROR
  else if az = .AXIS_WARNING ∨ el = .AXIS_WARNING then .SYSTEM_WARNING
  else if az = .AXIS_ENABLED ∨ el = .AXIS_ENABLED then .SYSTEM_PROCESSING
  else .SYSTEM_READY

/-- Modelled from the spec: the status publisher assembles one whole
`SystemStatus` per tick from the two per-axis statuses and the tick's
timestamps, with the overall state derived by `systemStateOf` (the
publisher's implementation file is not among the provided sources). -/
def publishSnapshot (az el : Types.AxisStatus) (reftime apptime dcsync : Nat) :
    Types.SystemStatus :=
  { axisAzimuth := az
    axisElevation := el
    state := systemStateOf az.state el.state
    reftime := reftime
    apptime := apptime
    dcsync := dcsync }

/-- Modelled from the spec: the CiA-402 statusword decode table of spec
section 4.3 — the statusword is masked with `0x6F` (bits 0,1,2,3,5,6) and
looked up; masked values missing from the table are not assigned a state
(the decoder's implementation file is not among the provided sources). -/
def decodeAxisState (statusword : Nat) : Option Types.AxisState :=
  match statusword % 2 ^ 16 &&& 0x6F with
  | 0x00 => some .AXIS_DISABLED
  | 0x40 => some .AXIS_DISABLED
  | 0x21 => some .AXIS_INIT
  | 0x23 => some .AXIS_IDLE
  | 0x27 => some .AXIS_ENABLED
  | 0x07 => some .AXIS_STOP
  | 0x0F => some .AXIS_ERROR
  | 0x08 => some .AXIS_ERROR
  | _ => none

/-- The list of all seven `AxisState` values, in enumerator order. -/
def allAxisStates : List Types.AxisState :=
  [.AXIS_DISABLED, .AXIS_INIT, .AXIS_IDLE, .AXIS_ENABLED,
   .AXIS_STOP, .AXIS_WARNING, .AXIS_ERROR]

/-- A command as normalised by the mode controller: requested idle, the
operation mode, and the target setpoints. -/
structure NormalizedCommand : Type where
  requestIdle : Bool
  mode : Types.OperationMode
  target_position : Int
  target_velocity : Int
  deriving DecidableEq, Repr

/-- Truncation of a rational toward zero (the rounding the reverse
degree-to-pulse conversion applies). -/
def truncTowardZero (q : Rat) : Int :=
  if 0 ≤ q then ⌊q⌋ else ⌈q⌉

/-- Modelled from the spec: `pulses_per_degree = encoder_pulses_per_rev / 360`
(the conversion code is not among the provided sources; computed exactly, in
`Rat`). -/
def pulses_per_degree (encoder_pulses_per_rev : Nat) : Rat :=
  (encoder_pulses_per_rev : Rat) / 360

/-- Modelled from the spec: encoder-pulse to degree conversion — division by
`pulses_per_degree`, exact ("lossless in the pulses→degree direction"). -/
def pulses_to_deg (ppd : Rat) (pulses : Int) : Rat :=
  (pulses : Rat) / ppd

/-- Modelled from the spec: degree to encoder-pulse conversion — multiply by
`pulses_per_degree` and round toward zero. -/
def deg_to_pulses (ppd : Rat) (deg : Rat) : Int :=
  truncTowardZero (deg * ppd)

end Model

namespace Example

/-- example.cpp `struct Command`: a parsed console command — one target axis,
a position in pulses, a velocity in pulses per second, and the idle flag. -/
structure Command : Type where
  axis : Int
  pos : Int
  vel : Int
  idle : Bool
  deriving DecidableEq, Repr

/-- example.cpp `Command::clear()`: reset to azimuth, zero position and
velocity, idle flag cleared (matches the default constructor). -/
def Command.clear : Command :=
  { axis := Types.AZIMUTH_AXIS, pos := 0, vel := 0, idle := false }

/-- The supervisory calls example.cpp issues on the `Control` object:
`SetModeRun(axis, pos, vel)`, `SetModeIdle(axis)`, `GetStatus()`,
`GetSystemInfo()`. -/
inductive ApiCall : Type where
  | SetModeRun (axis : Int) (pos : Int) (vel : Int)
  | SetModeIdle (axis : Int)
  | GetStatus
  | GetSystemInfo
  deriving DecidableEq, Repr

/-- example.cpp main loop, command dispatch (lines 270-277): an idle command
becomes `control.SetModeIdle(cmd.axis)`, anything else becomes
`control.SetModeRun(cmd.axis, cmd.pos, cmd.vel)` — always a single axis. -/
def dispatch (cmd : Command) : ApiCall :=
  if cmd.idle then .SetModeIdle cmd.axis
  else .SetModeRun cmd.axis cmd.pos cmd.vel

end Example

namespace Model

/-- Modelled from the spec: command normalisation in the mode controller
(spec section 4.5; the controller's implementation file is not among the
provided sources).  `idle = true` requests IDLE with mode `NOT_SET`;
`velocity == 0` selects POINT with `target_position = position` and
`target_velocity = |default_profile_velocity|`; `velocity ≠ 0` selects SCAN
with `target_velocity = velocity`, the position being ignored. -/
def normalizeCommand (default_profile_velocity : Int) (c : Example.Command) :
    NormalizedCommand :=
  if c.idle then
    { requestIdle := true, mode := .OP_MODE_NOT_SET,
      target_position := 0, target_velocity := 0 }
  else if c.vel = 0 then
    { requestIdle := false, mode := .OP_MODE_POINT,
      target_position := c.pos, target_velocity := |default_profile_velocity| }
  else
    { requestIdle := false, mode := .OP_MODE_SCAN,
      target_position := 0, target_velocity := c.vel }

end Model

namespace DrivesH

/-- drives.h `Control::SetModeRun(int32_t azimuth_angle,
int32_t azimuth_velocity, int32_t elevation_angle,
int32_t elevation_velocity)`: the argument tuple of the declared call — one
angle/velocity pair for each of the two axes. -/
structure SetModeRunArgs : Type where
  azimuth_angle : Int
  azimuth_velocity : Int
  elevation_angle : Int
  elevation_velocity : Int
  deriving DecidableEq, Repr

/-- The axes a drives.h `SetModeRun` call addresses.  Per the header's own
doc comment ("Соответственно для каждой оси: if (velocity == 0) ..."), the
call sets a mode for each of the two axes, whatever the arguments. -/
def SetModeRun.axesAddressed (_args : SetModeRunArgs) : List Int :=
  [Types.AZIMUTH_AXIS, Types.ELEVATION_AXIS]

/-- The axes a drives.h `SetModeIdle(bool azimuth_flag, bool elevation_flag)`
call addresses: each axis whose flag is set. -/
def SetModeIdle.axesAddressed (azimuth_flag elevation_flag : Bool) : List Int :=
  (if azimuth_flag then [Types.AZIMUTH_AXIS] else []) ++
  (if elevation_flag then [Types.ELEVATION_AXIS] else [])

end DrivesH

/-- C1: every snapshot assembled by the status publisher carries exactly one
overall `SystemState` out of `{ERROR, WARNING, PROCESSING, READY}`, and that
state is determined from the two axis states by the rule: `SYSTEM_ERROR` iff
some axis state is in `{AXIS_STOP, AXIS_ERROR}`; `SYSTEM_WARNING` iff some
axis state is `AXIS_WARNING` and no axis state triggers `SYSTEM_ERROR`;
`SYSTEM_PROCESSING` iff some axis state is `AXIS_ENABLED` and neither the
`SYSTEM_ERROR` nor the `SYSTEM_WARNING` condition holds; `SYSTEM_READY`
otherwise. -/
theorem systemState_rule (az el : Types.AxisStatus)
    (reftime apptime dcsync : Nat) :
    let s := Model.publishSnapshot az el reftime apptime dcsync
    let errCond := az.state = .AXIS_STOP ∨ az.state = .AXIS_ERROR ∨
      el.state = .AXIS_STOP ∨ el.state = .AXIS_ERROR
    let warnCond := (az.state = .AXIS_WARNING ∨ el.state = .AXIS_WARNING) ∧
      ¬ errCond
    let procCond := (az.state = .AXIS_ENABLED ∨ el.state = .AXIS_ENABLED) ∧
      ¬ errCond ∧ ¬ warnCond
    (s.state = .SYSTEM_ERROR ∨ s.state = .SYSTEM_WARNING ∨
     s.state = .SYSTEM_PROCESSING ∨ s.state = .SYSTEM_READY) ∧
    (s.state = .SYSTEM_ERROR ↔ errCond) ∧
    (s.state = .SYSTEM_WARNING ↔ warnCond) ∧
    (s.state = .SYSTEM_PROCESSING ↔ procCond) ∧
    (s.state = .SYSTEM_READY ↔ (¬ errCond ∧ ¬ warnCond ∧ ¬ procCond)) := by
  rcases az with ⟨_, _, _, _, _, _, _, _, _, _, _, _, _, _, sa, _, _, _, _, _, _, _, _, _⟩
  rcases el with ⟨_, _, _, _, _, _, _, _, _, _, _, _, _, _, se, _, _, _, _, _, _, _, _, _⟩
  cases sa <;> cases se <;> simp [Model.publishSnapshot, Model.systemStateOf, Model.axisFaulty]

/-- C2: the type of observed logical axis states has exactly the seven values
`AXIS_DISABLED`, `AXIS_INIT`, `AXIS_IDLE`, `AXIS_ENABLED`, `AXIS_STOP`,
`AXIS_WARNING`, `AXIS_ERROR` (no duplicates, nothing else), and every state
the statusword decoder (bits 0,1,2,3,5,6) produces is among them. -/
theorem axisState_exactly_seven :
    Model.allAxisStates.length = 7 ∧
    Model.allAxisStates.Nodup ∧
    (∀ s : Types.AxisState, s ∈ Model.allAxisStates) ∧
    (∀ statusword : Nat, ∀ s : Types.AxisState,
      Model.decodeAxisState statusword = some s → s ∈ Model.allAxisStates) := by
  refine ⟨rfl, by decide, ?_, ?_⟩
  · intro s; cases s <;> simp [Model.allAxisStates]
  · intro statusword s _
    cases s <;> simp [Model.allAxisStates]

/-- C7: a freshly constructed `CycleTimeInfo` has its three minimum fields
(`latency_min_ns`, `period_min_ns`, `exec_min_ns`) initialized to the maximum
representable `uint64_t` value `2^64 - 1`, and its current and maximum fields
for period, execution time and latency initialized to zero. -/
theorem cycleTimeInfo_init_min_fields_saturated :
    Types.CycleTimeInfo.init.latency_min_ns = 2 ^ 64 - 1 ∧
    Types.CycleTimeInfo.init.period_min_ns = 2 ^ 64 - 1 ∧
    Types.CycleTimeInfo.init.exec_min_ns = 2 ^ 64 - 1 ∧
    Types.CycleTimeInfo.init.period_ns = 0 ∧
    Types.CycleTimeInfo.init.exec_ns = 0 ∧
    Types.CycleTimeInfo.init.latency_ns = 0 ∧
    Types.CycleTimeInfo.init.latency_max_ns = 0 ∧
    Types.CycleTimeInfo.init.period_max_ns = 0 ∧
    Types.CycleTimeInfo.init.exec_max_ns = 0 := by
  refine ⟨rfl, rfl, rfl, rfl, rfl, rfl, rfl, rfl, rfl⟩

/-- C8: the axis-identity values are exactly two, `AZIMUTH_AXIS` and
`ELEVATION_AXIS`: the iteration of example.cpp over
`[AXIS_MIN, AXIS_COUNT)` visits exactly `AZIMUTH_AXIS` first and then
`ELEVATION_AXIS`, and an integer is a valid axis index
(`AXIS_MIN ≤ v < AXIS_COUNT`) exactly when it is one of those two. -/
theorem axis_enum_two_members_order :
    Types.iteratedAxes = [Types.AZIMUTH_AXIS, Types.ELEVATION_AXIS] ∧
    Types.iteratedAxes.length = 2 ∧
    Types.AZIMUTH_AXIS ≠ Types.ELEVATION_AXIS ∧
    (∀ v : Int, (Types.AXIS_MIN ≤ v ∧ v < Types.AXIS_COUNT) ↔
      (v = Types.AZIMUTH_AXIS ∨ v = Types.ELEVATION_AXIS)) := by
  refine ⟨rfl, rfl, by decide, ?_⟩
  intro v
  constructor
  · intro hv
    unfold Types.AXIS_MIN Types.AXIS_COUNT at hv
    unfold Types.AZIMUTH_AXIS Types.ELEVATION_AXIS
    omega
  · intro hv
    unfold Types.AZIMUTH_AXIS Types.ELEVATION_AXIS at hv
    unfold Types.AXIS_MIN Types.AXIS_COUNT
    omega

/-- C9: whatever indeterminate `statusword` values `swa`, `swe` the two
default-constructed axis statuses carry, a default-constructed
`SystemStatus` (drives.h) has overall state `SYSTEM_OFF` and an empty error
string, and each default-constructed `AxisStatus` has state `AXIS_OFF` with
every position, velocity and torque field and the `error_code` equal to 0. -/
theorem systemStatus_init_off_and_zeroed (swa swe : Nat) :
    (DrivesH.SystemStatus.init swa swe).state = .SYSTEM_OFF ∧
    (DrivesH.SystemStatus.init swa swe).error_str = "" ∧
    ((DrivesH.SystemStatus.init swa swe).azimuth = DrivesH.AxisStatus.init swa ∧
     (DrivesH.SystemStatus.init swa swe).elevation = DrivesH.AxisStatus.init swe) ∧
    (∀ sw : Nat,
      (DrivesH.AxisStatus.init sw).state = .AXIS_OFF ∧
      (DrivesH.AxisStatus.init sw).target_position = 0 ∧
      (DrivesH.AxisStatus.init sw).cur_position = 0 ∧
      (DrivesH.AxisStatus.init sw).demand_position = 0 ∧
      (DrivesH.AxisStatus.init sw).target_velocity = 0 ∧
      (DrivesH.AxisStatus.init sw).cur_velocity = 0 ∧
      (DrivesH.AxisStatus.init sw).demand_velocity = 0 ∧
      (DrivesH.AxisStatus.init sw).cur_torque = 0 ∧
      (DrivesH.AxisStatus.init sw).error_code = 0) := by
  refine ⟨rfl, rfl, ⟨rfl, rfl⟩, ?_⟩
  intro sw
  exact ⟨rfl, rfl, rfl, rfl, rfl, rfl, rfl, rfl, rfl⟩

theorem Model.truncTowardZero_intCast (n : Int) :
    Model.truncTowardZero (n : Rat) = n := by
  unfold Model.truncTowardZero
  split <;> simp

theorem Model.truncTowardZero_le_abs (q : Rat) :
    |((Model.truncTowardZero q : Int) : Rat)| ≤ |q| ∧
    |((Model.truncTowardZero q : Int) : Rat) - q| < 1 := by
  unfold Model.truncTowardZero
  split
  case isTrue h =>
    have h1 : ((⌊q⌋ : Int) : Rat) ≤ q := Int.floor_le q
    have h2 : q - 1 < ((⌊q⌋ : Int) : Rat) := Int.sub_one_lt_floor q
    have h3 : (0 : Rat) ≤ ((⌊q⌋ : Int) : Rat) := by
      exact_mod_cast Int.floor_nonneg.mpr h
    rw [abs_of_nonneg h3, abs_of_nonneg h, abs_lt]
    exact ⟨h1, by linarith, by linarith⟩
  case isFalse h =>
    push_neg at h
    have h1 : q ≤ ((⌈q⌉ : Int) : Rat) := Int.le_ceil q
    have h2 : ((⌈q⌉ : Int) : Rat) < q + 1 := Int.ceil_lt_add_one q
    have h3 : ((⌈q⌉ : Int) : Rat) ≤ 0 := by
      have hc : (⌈q⌉ : Int) ≤ 0 := Int.ceil_le.mpr (by exact_mod_cast h.le)
      exact_mod_cast hc
    rw [abs_of_nonpos h3, abs_of_nonpos h.le, abs_lt]
    exact ⟨by linarith, by linarith, by linarith⟩

theorem Model.pulses_per_degree_pos (ppr : Nat) (h : 0 < ppr) :
    0 < Model.pulses_per_degree ppr := by
  unfold Model.pulses_per_degree
  apply div_pos
  · exact_mod_cast h
  · norm_num

theorem Model.conv_roundtrip_pulses (ppd : Rat) (hppd : ppd ≠ 0) (p : Int) :
    Model.deg_to_pulses ppd (Model.pulses_to_deg ppd p) = p := by
  unfold Model.deg_to_pulses Model.pulses_to_deg
  rw [div_mul_cancel₀ _ hppd]
  exact Model.truncTowardZero_intCast p

theorem Model.conv_roundtrip_deg (ppd : Rat) (hppd : 0 < ppd) (d : Rat) :
    |Model.pulses_to_deg ppd (Model.deg_to_pulses ppd d) - d| ≤ 1 / ppd := by
  have hne : ppd ≠ 0 := ne_of_gt hppd
  have key : Model.pulses_to_deg ppd (Model.deg_to_pulses ppd d) - d =
      (((Model.deg_to_pulses ppd d : Int) : Rat) - d * ppd) / ppd := by
    unfold Model.pulses_to_deg
    field_simp
    ring
  rw [key, abs_div, abs_of_pos hppd]
  have hnum := (Model.truncTowardZero_le_abs (d * ppd)).2
  have hnum2 : |((Model.deg_to_pulses ppd d : Int) : Rat) - d * ppd| ≤ 1 := by
    unfold Model.deg_to_pulses
    exact le_of_lt hnum
  exact div_le_div_of_nonneg_right hnum2 hppd.le

/-- C3 (supporting evaluation): the supervisory calls example.cpp actually
issues address a single axis — the example's dispatch of a run command for
azimuth at position 524288, velocity 0 is `SetModeRun(AZIMUTH_AXIS, 524288,
0)` and its idle command is `SetModeIdle(AZIMUTH_AXIS)` — while the
`SetModeRun` declared in drives.h addresses both axes in one call, as does
`SetModeIdle(true, true)`. -/
theorem api_surface_single_axis_divergence :
    Example.dispatch ⟨Types.AZIMUTH_AXIS, 524288, 0, false⟩ =
      Example.ApiCall.SetModeRun Types.AZIMUTH_AXIS 524288 0 ∧
    Example.dispatch ⟨Types.AZIMUTH_AXIS, 0, 0, true⟩ =
      Example.ApiCall.SetModeIdle Types.AZIMUTH_AXIS ∧
    DrivesH.SetModeRun.axesAddressed ⟨524288, 0, 0, 0⟩ =
      [Types.AZIMUTH_AXIS, Types.ELEVATION_AXIS] ∧
    (DrivesH.SetModeRun.axesAddressed ⟨524288, 0, 0, 0⟩).length = 2 ∧
    DrivesH.SetModeIdle.axesAddressed true true =
      [Types.AZIMUTH_AXIS, Types.ELEVATION_AXIS] := by
  refine ⟨rfl, rfl, rfl, rfl, rfl⟩

/-- C4: for every command received with `idle = false`: if the commanded
velocity is 0 the axis enters POINT mode with `target_position` set to the
commanded position; if the commanded velocity is non-zero the axis enters
SCAN mode with `target_velocity` set to the commanded velocity (sign
preserved, giving the direction), the commanded position being ignored. -/
theorem run_command_mode_selection (dpv : Int) (c : Example.Command)
    (h : c.idle = false) :
    (c.vel = 0 →
      (Model.normalizeCommand dpv c).mode = .OP_MODE_POINT ∧
      (Model.normalizeCommand dpv c).target_position = c.pos) ∧
    (c.vel ≠ 0 →
      (Model.normalizeCommand dpv c).mode = .OP_MODE_SCAN ∧
      (Model.normalizeCommand dpv c).target_velocity = c.vel ∧
      ∀ p : Int, Model.normalizeCommand dpv { c with pos := p } =
        Model.normalizeCommand dpv c) := by
  constructor
  · intro hv
    simp [Model.normalizeCommand, h, hv]
  · intro hv
    refine ⟨?_, ?_, ?_⟩ <;> intros <;> simp [Model.normalizeCommand, h, hv]

/-- Witness for C4 at the spec's literal inputs: the point move
`SetModeRun(AZIMUTH, 524288, 0)` normalises to POINT with target position
524288, and the scan `SetModeRun(AZIMUTH, 0, 100000)` normalises to SCAN
with target velocity 100000. -/
theorem run_command_mode_selection_witness :
    (Model.normalizeCommand 20000 ⟨Types.AZIMUTH_AXIS, 524288, 0, false⟩).mode =
      Types.OperationMode.OP_MODE_POINT ∧
    (Model.normalizeCommand 20000
        ⟨Types.AZIMUTH_AXIS, 524288, 0, false⟩).target_position = 524288 ∧
    (Model.normalizeCommand 20000 ⟨Types.AZIMUTH_AXIS, 0, 100000, false⟩).mode =
      Types.OperationMode.OP_MODE_SCAN ∧
    (Model.normalizeCommand 20000
        ⟨Types.AZIMUTH_AXIS, 0, 100000, false⟩).target_velocity = 100000 := by
  have h1 := run_command_mode_selection 20000
    ⟨Types.AZIMUTH_AXIS, 524288, 0, false⟩ rfl
  have h2 := run_command_mode_selection 20000
    ⟨Types.AZIMUTH_AXIS, 0, 100000, false⟩ rfl
  exact ⟨(h1.1 rfl).1, (h1.1 rfl).2, (h2.2 (by decide)).1, (h2.2 (by decide)).2.1⟩

/-- C5: for every axis with positive `encoder_pulses_per_rev`, with
`pulses_per_degree = encoder_pulses_per_rev / 360`: the conversion is
positive-scaled, the pulse→degree direction is lossless (the reverse
conversion recovers every pulse count exactly), the degree→pulse conversion
rounds toward zero (its result is no farther from zero than the exact scaled
value and within distance 1 of it), and the round trip
`pulses_to_deg (deg_to_pulses d)` differs from `d` by at most
`1 / pulses_per_degree`. -/
theorem degree_pulse_conversion (ppr : Nat) (h : 0 < ppr) :
    0 < Model.pulses_per_degree ppr ∧
    (∀ p : Int,
      Model.deg_to_pulses (Model.pulses_per_degree ppr)
        (Model.pulses_to_deg (Model.pulses_per_degree ppr) p) = p) ∧
    (∀ d : Rat,
      |((Model.deg_to_pulses (Model.pulses_per_degree ppr) d : Int) : Rat)| ≤
        |d * Model.pulses_per_degree ppr| ∧
      |((Model.deg_to_pulses (Model.pulses_per_degree ppr) d : Int) : Rat) -
        d * Model.pulses_per_degree ppr| < 1) ∧
    (∀ d : Rat,
      |Model.pulses_to_deg (Model.pulses_per_degree ppr)
        (Model.deg_to_pulses (Model.pulses_per_degree ppr) d) - d| ≤
        1 / Model.pulses_per_degree ppr) := by
  have hppd : 0 < Model.pulses_per_degree ppr := Model.pulses_per_degree_pos ppr h
  refine ⟨hppd, fun p => Model.conv_roundtrip_pulses _ (ne_of_gt hppd) p,
    fun d => ?_, fun d => Model.conv_roundtrip_deg _ hppd d⟩
  have hb := Model.truncTowardZero_le_abs (d * Model.pulses_per_degree ppr)
  exact hb

/-- Witness for C5 at `encoder_pulses_per_rev = 1048576 = 2^20`: converting
the half-revolution pulse count 524288 to degrees and back recovers it
exactly. -/
theorem degree_pulse_conversion_witness :
    Model.deg_to_pulses (Model.pulses_per_degree 1048576)
      (Model.pulses_to_deg (Model.pulses_per_degree 1048576) 524288) = 524288 :=
  (degree_pulse_conversion 1048576 (by decide)).2.1 524288

/-- Witness for C2: the decoder applied to statusword `0x0231`
(ready-to-switch-on) yields `AXIS_INIT`, a member of the seven-value list. -/
theorem axisState_exactly_seven_witness :
    Types.AxisState.AXIS_INIT ∈ Model.allAxisStates :=
  axisState_exactly_seven.2.2.2 0x0231 Types.AxisState.AXIS_INIT (by decide)

/-- C10: a default-constructed `AxisInfo` has `encoder_pulses_per_rev = 0`,
hence `pulses_per_degree = 0`, and the pulse→degree conversion divides by
zero — in the `Rat` model every pulse count collapses to 0 degrees and the
round trip fails at pulse count 1 — so the degree conversions are
well-defined (round trip on pulses exact) only under the precondition
`encoder_pulses_per_rev > 0`. -/
theorem axisInfo_init_degenerate_conversion :
    Types.AxisInfo.init.encoder_pulses_per_rev = 0 ∧
    Model.pulses_per_degree Types.AxisInfo.init.encoder_pulses_per_rev = 0 ∧
    (∀ p : Int,
      Model.pulses_to_deg
        (Model.pulses_per_degree Types.AxisInfo.init.encoder_pulses_per_rev)
        p = 0) ∧
    Model.deg_to_pulses (Model.pulses_per_degree 0)
      (Model.pulses_to_deg (Model.pulses_per_degree 0) 1) ≠ 1 ∧
    (∀ ppr : Nat, 0 < ppr → ∀ p : Int,
      Model.deg_to_pulses (Model.pulses_per_degree ppr)
        (Model.pulses_to_deg (Model.pulses_per_degree ppr) p) = p) := by
  have hz : Model.pulses_per_degree 0 = 0 := by
    unfold Model.pulses_per_degree
    norm_num
  refine ⟨rfl, hz, ?_, ?_, ?_⟩
  · intro p
    show Model.pulses_to_deg (Model.pulses_per_degree 0) p = 0
    rw [hz]
    unfold Model.pulses_to_deg
    exact div_zero _
  · rw [hz]
    unfold Model.pulses_to_deg Model.deg_to_pulses Model.truncTowardZero
    norm_num
  · intro ppr hppr p
    exact Model.conv_roundtrip_pulses _
      (ne_of_gt (Model.pulses_per_degree_pos ppr hppr)) p

/-- Witness for C10: under the precondition, at
`encoder_pulses_per_rev = 1048576`, the round trip recovers pulse count 5. -/
theorem axisInfo_init_degenerate_conversion_witness :
    Model.deg_to_pulses (Model.pulses_per_degree 1048576)
      (Model.pulses_to_deg (Model.pulses_per_degree 1048576) 5) = 5 :=
  axisInfo_init_degenerate_conversion.2.2.2.2 1048576 (by decide) 5
